import Mathlib

/-!
Verification of the Easy-health backend's care-workflow logic against its
natural-language specification.  The JavaScript route handlers and mongoose
schemas are shallowly embedded as pure Lean functions over explicit state:
document collections become lists, ObjectIds become naturals, monetary
amounts become rationals, fallible handlers return `Except (Nat × String)`
pairing the HTTP status with the error message, and handlers that write
documents additionally return the updated state.  Mongoose `unique` indexes
are modelled as a pre-insert existence check whose violation surfaces through
the handler's catch-all branch, exactly as the storage layer's duplicate-key
error does in the original.
-/

namespace EasyHealth

/-- User roles, from the Profile schema's role enum. -/
inductive Role where
  | patient
  | doctor
  | lab_technician
  | pharmacist
  | admin
  | nurse
deriving DecidableEq, Repr

/-- Appointment status enum, from the Appointment schema. -/
inductive ApptStatus where
  | pending
  | approved
  | rejected
  | completed
  | cancelled
deriving DecidableEq, Repr

/-- Appointment document (fields relevant to the verified routes). -/
structure Appointment where
  id : Nat
  patient_id : Nat
  doctor_id : Nat
  appointment_date : String
  appointment_time : String
  status : ApptStatus
deriving DecidableEq, Repr

/-- Two-digit zero padding, embedding `hour.toString().padStart(2, '0')`. -/
def pad2 (n : Nat) : String :=
  if n < 10 then "0" ++ toString n else toString n

/-- Slot string construction, embedding the template literal
`hour:minute:00` of the available-slots handler. -/
def slotStr (hour minute : Nat) : String :=
  pad2 hour ++ ":" ++ pad2 minute ++ ":00"

/-- All candidate slots, embedding the double loop
`for hour in 8..17, for minute in 0,10,...,50` of
GET /available/:doctorId/:date. -/
def allSlots : List String :=
  (List.range' 8 10).flatMap fun hour =>
    (List.range' 0 6 10).map fun minute => slotStr hour minute

/-- Predicate of the mongoose query
`{doctor_id, appointment_date, status: {$in: ['pending','approved']}}`. -/
def isBlocking (doct : Nat) (date : String) (a : Appointment) : Bool :=
  a.doctor_id == doct && a.appointment_date == date &&
    (a.status == .pending || a.status == .approved)

/-- Booked slots: the `appointment_time` projection of the query result. -/
def bookedSlots (db : List Appointment) (doct : Nat) (date : String) : List String :=
  (db.filter (isBlocking doct date)).map (·.appointment_time)

/-- Available slots, embedding
`allSlots.filter(slot => !bookedSlots.includes(slot))`. -/
def availableSlots (db : List Appointment) (doct : Nat) (date : String) : List String :=
  allSlots.filter fun s => !((bookedSlots db doct date).contains s)

/-- C1: for every doctor id and date, the available-slot computation returns
exactly the 60 candidate times 08:00:00, 08:10:00, ..., 17:50:00 minus the
appointment_time values of that doctor's appointments on that date whose
status is pending or approved; rejected, cancelled, or completed appointments
do not remove a slot. -/
theorem C1_available_slots :
    (allSlots =
      ["08:00:00", "08:10:00", "08:20:00", "08:30:00", "08:40:00", "08:50:00",
      "09:00:00", "09:10:00", "09:20:00", "09:30:00", "09:40:00", "09:50:00",
      "10:00:00", "10:10:00", "10:20:00", "10:30:00", "10:40:00", "10:50:00",
      "11:00:00", "11:10:00", "11:20:00", "11:30:00", "11:40:00", "11:50:00",
      "12:00:00", "12:10:00", "12:20:00", "12:30:00", "12:40:00", "12:50:00",
      "13:00:00", "13:10:00", "13:20:00", "13:30:00", "13:40:00", "13:50:00",
      "14:00:00", "14:10:00", "14:20:00", "14:30:00", "14:40:00", "14:50:00",
      "15:00:00", "15:10:00", "15:20:00", "15:30:00", "15:40:00", "15:50:00",
      "16:00:00", "16:10:00", "16:20:00", "16:30:00", "16:40:00", "16:50:00",
      "17:00:00", "17:10:00", "17:20:00", "17:30:00", "17:40:00", "17:50:00"]) ∧
    allSlots.length = 60 ∧
    ∀ (db : List Appointment) (doct : Nat) (date : String) (t : String),
      t ∈ availableSlots db doct date ↔
        (t ∈ allSlots ∧
          ¬ ∃ a ∈ db, a.doctor_id = doct ∧ a.appointment_date = date ∧
            (a.status = .pending ∨ a.status = .approved) ∧ a.appointment_time = t) := by
  refine ⟨by decide, by decide, fun db doct date t => ?_⟩
  simp [availableSlots, bookedSlots, isBlocking, List.mem_filter, List.mem_map,
    List.contains_eq_any_beq]

/-- Prescription status enum, from the Prescription schema. -/
inductive PStatus where
  | pending
  | approved
  | rejected
  | completed
  | paid
deriving DecidableEq, Repr

/-- One entry of the `items` array of POST /prescriptions.  Absent JSON
fields are `none`; `medication_id` is `Option` because the handler checks
its presence with a truthiness test. -/
structure PItem where
  medication_id : Option Nat
  quantity : Int
  dosage : String
  instructions : Option String
  unit_price : Option Rat
deriving DecidableEq, Repr

/-- Prescription document, from the Prescription schema.  `medication_id`
is kept `Option` because PUT /prescriptions/:id explicitly guards against
documents lacking it. -/
structure Prescription where
  id : Nat
  consultation_id : Nat
  patient_id : Nat
  doctor_id : Nat
  medication_id : Option Nat
  quantity : Int
  dosage : String
  instructions : String
  unit_price : Rat
  total_price : Rat
  notes : String
  signature_data : String
  status : PStatus
  pharmacy_id : Option Nat
deriving DecidableEq, Repr

/-- Non-item fields of the POST /prescriptions body (`prescriptionData`). -/
structure PrescriptionBody where
  consultation_id : Nat
  patient_id : Nat
  notes : Option String
  signature_data : Option String
  status : Option PStatus
deriving DecidableEq, Repr

/-- Truth of the handler's three per-item rejection tests, in source order:
`!item.medication_id`, `!item.quantity || item.quantity <= 0` (over numbers
both reduce to `quantity <= 0`), `!item.dosage || !item.dosage.trim()`. -/
def itemInvalid (it : PItem) : Bool :=
  it.medication_id.isNone || it.quantity ≤ 0 || it.dosage.trim == ""

/-- Error message for an invalid item at 0-based position `i`, choosing the
message of the first failing test as the handler's loop body does. -/
def itemMsg (i : Nat) (it : PItem) : String :=
  if it.medication_id.isNone then
    "Item " ++ toString (i + 1) ++ ": medication_id is required"
  else if it.quantity ≤ 0 then
    "Item " ++ toString (i + 1) ++ ": quantity must be greater than 0"
  else
    "Item " ++ toString (i + 1) ++ ": dosage is required"

/-- Validation loop of POST /prescriptions: returns the error message of
the first invalid item, counting positions from `i`. -/
def firstItemError (i : Nat) : List PItem → Option String
  | [] => none
  | it :: rest =>
    if itemInvalid it then some (itemMsg i it) else firstItemError (i + 1) rest

/-- Document built for one item inside the creation loop of
POST /prescriptions; `id` models the generated ObjectId. -/
def mkPrescription (doct : Nat) (body : PrescriptionBody) (id : Nat)
    (it : PItem) : Prescription :=
  { id := id
    consultation_id := body.consultation_id
    patient_id := body.patient_id
    doctor_id := doct
    medication_id := it.medication_id
    quantity := it.quantity
    dosage := it.dosage
    instructions := it.instructions.getD ""
    unit_price := it.unit_price.getD 0
    total_price := (it.unit_price.getD 0) * (it.quantity : Rat)
    notes := body.notes.getD ""
    signature_data := body.signature_data.getD ""
    status := body.status.getD .pending
    pharmacy_id := none }

/-- Creation loop of POST /prescriptions: one document per item, ids drawn
from a counter. -/
def buildPrescriptions (doct : Nat) (body : PrescriptionBody) :
    Nat → List PItem → List Prescription
  | _, [] => []
  | n, it :: rest =>
    mkPrescription doct body n it :: buildPrescriptions doct body (n + 1) rest

/-- POST /prescriptions handler.  `doctorOf` is the result of
`Doctor.findOne({user_id})` for the caller; `items = none` models an absent
or non-array `items` field.  Returns the prescription collection after the
request together with the handler's response. -/
def createPrescriptions (callerRole : Role) (doctorOf : Option Nat)
    (body : PrescriptionBody) (items : Option (List PItem))
    (db : List Prescription) (nextId : Nat) :
    List Prescription × Except (Nat × String) (List Prescription × Nat × String) :=
  if callerRole ≠ .doctor then
    (db, .error (403, "Only doctors can create prescriptions"))
  else
    match items with
    | none => (db, .error (400, "Prescription must contain at least one medication item"))
    | some its =>
      if its.isEmpty then
        (db, .error (400, "Prescription must contain at least one medication item"))
      else
        match firstItemError 0 its with
        | some msg => (db, .error (400, msg))
        | none =>
          match doctorOf with
          | none => (db, .error (404, "Doctor profile not found"))
          | some doct =>
            let created := buildPrescriptions doct body nextId its
            (db ++ created,
              .ok (created, created.length,
                "Created " ++ toString created.length ++ " prescription(s) - one per medication"))

/-- Spec-side validity of one item: a medication reference, a positive
quantity, and a non-blank dosage. -/
def ValidItem (it : PItem) : Prop :=
  it.medication_id.isSome ∧ 0 < it.quantity ∧ it.dosage.trim ≠ ""

instance (it : PItem) : Decidable (ValidItem it) := by
  unfold ValidItem
  infer_instance

theorem validItem_iff (it : PItem) : ValidItem it ↔ itemInvalid it = false := by
  simp [ValidItem, itemInvalid, Option.isNone_iff_eq_none, Option.isSome_iff_ne_none,
    not_le, Int.lt_iff_add_one_le, and_assoc]

theorem firstItemError_eq_none (k : Nat) (its : List PItem) :
    firstItemError k its = none ↔ ∀ it ∈ its, ValidItem it := by
  induction its generalizing k with
  | nil => simp [firstItemError]
  | cons it rest ih =>
    by_cases hinv : itemInvalid it
    · simp [firstItemError, hinv]
      intro h
      exact absurd ((validItem_iff it).mp h) (by simp [hinv])
    · simp only [Bool.not_eq_true] at hinv
      simp [firstItemError, hinv, ih, validItem_iff]

theorem firstItemError_some (k : Nat) (its : List PItem)
    (hbad : ∃ it ∈ its, ¬ ValidItem it) :
    ∃ i, ∃ h : i < its.length,
      ¬ ValidItem (its.get ⟨i, h⟩) ∧
      (∀ j (hj : j < i), ValidItem (its.get ⟨j, hj.trans h⟩)) ∧
      firstItemError k its = some (itemMsg (k + i) (its.get ⟨i, h⟩)) := by
  induction its generalizing k with
  | nil => simp at hbad
  | cons it rest ih =>
    by_cases hinv : itemInvalid it
    · refine ⟨0, by simp, ?_, ?_, ?_⟩
      · simp [validItem_iff, hinv]
      · intro j hj; omega
      · simp [firstItemError, hinv]
    · simp only [Bool.not_eq_true] at hinv
      have hv : ValidItem it := (validItem_iff it).mpr hinv
      have hbad2 : ∃ x ∈ rest, ¬ ValidItem x := by
        rcases hbad with ⟨x, hx, hnx⟩
        rcases List.mem_cons.mp hx with rfl | hx2
        · exact absurd hv hnx
        · exact ⟨x, hx2, hnx⟩
      obtain ⟨i, h, hni, hpre, heq⟩ := ih (k + 1) hbad2
      refine ⟨i + 1, by simpa using Nat.succ_lt_succ h, by simpa using hni, ?_, ?_⟩
      · intro j hj
        match j with
        | 0 => simpa using hv
        | j' + 1 =>
          have := hpre j' (by omega)
          simpa using this
      · have hk : k + 1 + i = k + (i + 1) := by omega
        simp [firstItemError, hinv, heq, hk]

theorem buildPrescriptions_length (doct : Nat) (body : PrescriptionBody)
    (n : Nat) (its : List PItem) :
    (buildPrescriptions doct body n its).length = its.length := by
  induction its generalizing n with
  | nil => simp [buildPrescriptions]
  | cons it rest ih => simp [buildPrescriptions, ih]

theorem buildPrescriptions_total (doct : Nat) (body : PrescriptionBody)
    (n : Nat) (its : List PItem) :
    ∀ p ∈ buildPrescriptions doct body n its,
      p.total_price = p.unit_price * (p.quantity : Rat) := by
  induction its generalizing n with
  | nil => simp [buildPrescriptions]
  | cons it rest ih =>
    intro p hp
    rcases List.mem_cons.mp hp with rfl | hp2
    · simp [mkPrescription]
    · exact ih (n + 1) p hp2

/-- C2 (amended to require a non-empty item list, which the handler enforces
separately with its own error): if every item of a non-empty list L has a
medication reference, a positive quantity and a non-blank dosage, exactly |L|
Prescription documents are created, each with total_price = unit_price ×
quantity, and the response carries the created documents, the count |L| and a
confirmation message; if some item violates a condition, the collection is
unchanged (zero documents created) and the error carries the message for the
first violating item's index. -/
theorem C2_prescription_batch (doct : Nat) (body : PrescriptionBody)
    (its : List PItem) (db : List Prescription) (nextId : Nat)
    (hne : its ≠ []) :
    ((∀ it ∈ its, ValidItem it) →
       ∃ created,
         createPrescriptions .doctor (some doct) body (some its) db nextId
           = (db ++ created,
               .ok (created, its.length,
                 "Created " ++ toString its.length ++ " prescription(s) - one per medication")) ∧
         created.length = its.length ∧
         ∀ p ∈ created, p.total_price = p.unit_price * (p.quantity : Rat)) ∧
    ((∃ it ∈ its, ¬ ValidItem it) →
       ∃ i, ∃ h : i < its.length,
         ¬ ValidItem (its.get ⟨i, h⟩) ∧
         (∀ j (hj : j < i), ValidItem (its.get ⟨j, hj.trans h⟩)) ∧
         createPrescriptions .doctor (some doct) body (some its) db nextId
           = (db, .error (400, itemMsg i (its.get ⟨i, h⟩)))) := by
  constructor
  · intro hval
    have hfe : firstItemError 0 its = none := (firstItemError_eq_none 0 its).mpr hval
    refine ⟨buildPrescriptions doct body nextId its, ?_, ?_, ?_⟩
    · simp [createPrescriptions, hfe, List.isEmpty_iff, hne, buildPrescriptions_length]
    · exact buildPrescriptions_length doct body nextId its
    · exact buildPrescriptions_total doct body nextId its
  · intro hbad
    obtain ⟨i, h, hni, hpre, heq⟩ := firstItemError_some 0 its hbad
    refine ⟨i, h, hni, hpre, ?_⟩
    simp [createPrescriptions, heq, List.isEmpty_iff, hne]

/-- C2 counterexample to the claim as stated: for the empty item list every
item vacuously satisfies the validity conditions, yet the handler rejects the
request with an InvalidInput error instead of answering with the created
documents and count 0. -/
theorem C2_empty_list_counterexample :
    (∀ it ∈ ([] : List PItem), ValidItem it) ∧
    createPrescriptions .doctor (some 1) ⟨1, 2, none, none, none⟩ (some []) [] 0
      = ([], .error (400, "Prescription must contain at least one medication item")) ∧
    ∀ r : List Prescription × Nat × String,
      (createPrescriptions .doctor (some 1) ⟨1, 2, none, none, none⟩ (some []) [] 0).2
        ≠ .ok r := by
  refine ⟨by simp, by rfl, ?_⟩
  intro r hr
  simp [createPrescriptions] at hr

/-- C2 witness: two valid items (qty 2 at 500, qty 1 at 1200) processed by
the amended theorem at a concrete input. -/
theorem C2_prescription_batch_witness :
    (([⟨some 5, 2, "1x daily", none, some 500⟩,
       ⟨some 6, 1, "2x daily", none, some 1200⟩] : List PItem) ≠ []) ∧
    ((∀ it ∈ ([⟨some 5, 2, "1x daily", none, some 500⟩,
               ⟨some 6, 1, "2x daily", none, some 1200⟩] : List PItem), ValidItem it) →
       ∃ created,
         createPrescriptions .doctor (some 1) ⟨1, 2, none, none, none⟩
             (some [⟨some 5, 2, "1x daily", none, some 500⟩,
                    ⟨some 6, 1, "2x daily", none, some 1200⟩]) [] 0
           = ([] ++ created,
               .ok (created,
                 ([⟨some 5, 2, "1x daily", none, some 500⟩,
                   ⟨some 6, 1, "2x daily", none, some 1200⟩] : List PItem).length,
                 "Created " ++ toString ([⟨some 5, 2, "1x daily", none, some 500⟩,
                   ⟨some 6, 1, "2x daily", none, some 1200⟩] : List PItem).length
                   ++ " prescription(s) - one per medication")) ∧
         created.length = ([⟨some 5, 2, "1x daily", none, some 500⟩,
                            ⟨some 6, 1, "2x daily", none, some 1200⟩] : List PItem).length ∧
         ∀ p ∈ created, p.total_price = p.unit_price * (p.quantity : Rat)) ∧
    ((∃ it ∈ ([⟨some 5, 2, "1x daily", none, some 500⟩,
               ⟨some 6, 1, "2x daily", none, some 1200⟩] : List PItem), ¬ ValidItem it) →
       ∃ i, ∃ h : i < ([⟨some 5, 2, "1x daily", none, some 500⟩,
                        ⟨some 6, 1, "2x daily", none, some 1200⟩] : List PItem).length,
         ¬ ValidItem (([⟨some 5, 2, "1x daily", none, some 500⟩,
                        ⟨some 6, 1, "2x daily", none, some 1200⟩] : List PItem).get ⟨i, h⟩) ∧
         (∀ j (hj : j < i),
            ValidItem (([⟨some 5, 2, "1x daily", none, some 500⟩,
                         ⟨some 6, 1, "2x daily", none, some 1200⟩] : List PItem).get
                ⟨j, hj.trans h⟩)) ∧
         createPrescriptions .doctor (some 1) ⟨1, 2, none, none, none⟩
             (some [⟨some 5, 2, "1x daily", none, some 500⟩,
                    ⟨some 6, 1, "2x daily", none, some 1200⟩]) [] 0
           = ([], .error (400,
               itemMsg i (([⟨some 5, 2, "1x daily", none, some 500⟩,
                            ⟨some 6, 1, "2x daily", none, some 1200⟩] : List PItem).get
                  ⟨i, h⟩)))) :=
  ⟨by decide,
   C2_prescription_batch 1 ⟨1, 2, none, none, none⟩
     [⟨some 5, 2, "1x daily", none, some 500⟩,
      ⟨some 6, 1, "2x daily", none, some 1200⟩] [] 0 (by decide)⟩

/-- Profile document (fields relevant to the verified routes).  Stored
emails carry the schema's lowercase and trim transforms. -/
structure Profile where
  id : Nat
  email : String
  password : String
  full_name : String
  role : Role
  insurance_id : Option Nat
deriving DecidableEq, Repr

/-- Insurance document, from the Insurance schema. -/
structure Insurance where
  id : Nat
  coverage_percentage : Rat
deriving DecidableEq, Repr

/-- Payment status enum, from the Payment schema. -/
inductive PayStatus where
  | pending
  | completed
  | failed
deriving DecidableEq, Repr

/-- Payment document, from the Payment schema. -/
structure Payment where
  patient_id : Nat
  payment_type : String
  reference_id : Nat
  amount : Rat
  insurance_coverage : Rat
  patient_pays : Rat
  payment_method : String
  transaction_id : String
  status : PayStatus
deriving DecidableEq, Repr

/-- Coverage computation of POST /payments: `insuranceCoverage` starts 0 and
is set to `amount * coverage_percentage / 100` only when the patient has an
insurance reference that `Insurance.findById` resolves. -/
def coverageOf (insurances : List Insurance) (amount : Rat)
    (insRef : Option Nat) : Rat :=
  match insRef with
  | none => 0
  | some iid =>
    match insurances.find? (fun s => s.id == iid) with
    | none => 0
    | some ins => amount * ins.coverage_percentage / 100

/-- POST /payments handler.  The caller is the authenticated profile;
`profiles` and `insurances` are the corresponding collections. -/
def createPayment (profiles : List Profile) (insurances : List Insurance)
    (caller : Profile) (amount : Rat) (ptype : String) (refid : Nat)
    (method txid : String) : Except (Nat × String) Payment :=
  if caller.role ≠ .patient then
    .error (403, "Only patients can create payments")
  else
    match profiles.find? (fun p => p.id == caller.id) with
    | none => .error (500, "Cannot read properties of null")
    | some patient =>
      let cov : Rat := coverageOf insurances amount patient.insurance_id
      .ok
        { patient_id := caller.id
          payment_type := ptype
          reference_id := refid
          amount := amount
          insurance_coverage := cov
          patient_pays := amount - cov
          payment_method := method
          transaction_id := txid
          status := .completed }

/-- C3: for every payment created by a patient with caller-supplied amount,
insurance_coverage = amount × coverage_percentage / 100 when the patient's
insurance reference resolves to an Insurance record, else 0; patient_pays =
amount − insurance_coverage; and the created payment's status is completed
unconditionally. -/
theorem C3_payment_coverage (profiles : List Profile) (insurances : List Insurance)
    (caller : Profile) (amount : Rat) (ptype : String) (refid : Nat)
    (method txid : String)
    (hrole : caller.role = .patient)
    (hfind : profiles.find? (fun p => p.id == caller.id) = some caller) :
    ∃ pay, createPayment profiles insurances caller amount ptype refid method txid
        = .ok pay ∧
      pay.status = .completed ∧
      pay.amount = amount ∧
      pay.patient_pays = amount - pay.insurance_coverage ∧
      (∀ iid ins, caller.insurance_id = some iid →
        insurances.find? (fun s => s.id == iid) = some ins →
        pay.insurance_coverage = amount * ins.coverage_percentage / 100) ∧
      (caller.insurance_id = none → pay.insurance_coverage = 0) ∧
      (∀ iid, caller.insurance_id = some iid →
        insurances.find? (fun s => s.id == iid) = none →
        pay.insurance_coverage = 0) := by
  have hok : createPayment profiles insurances caller amount ptype refid method txid
      = .ok
        { patient_id := caller.id
          payment_type := ptype
          reference_id := refid
          amount := amount
          insurance_coverage := coverageOf insurances amount caller.insurance_id
          patient_pays := amount - coverageOf insurances amount caller.insurance_id
          payment_method := method
          transaction_id := txid
          status := .completed } := by
    simp [createPayment, hrole, hfind]
  refine ⟨_, hok, rfl, rfl, rfl, ?_, ?_, ?_⟩
  · intro iid ins hiid hins
    simp [coverageOf, hiid, hins]
  · intro hiid
    simp [coverageOf, hiid]
  · intro iid hiid hins
    simp [coverageOf, hiid, hins]

/-- C3 witness: a 30 percent policy on an amount of 5000 yields coverage
1500 and patient_pays 3500, via the theorem at a concrete input. -/
theorem C3_payment_coverage_witness :
    (Profile.mk 1 "p@x.com" "H" "Pat" .patient (some 9)).role = .patient ∧
    [Profile.mk 1 "p@x.com" "H" "Pat" .patient (some 9)].find?
      (fun p => p.id == (Profile.mk 1 "p@x.com" "H" "Pat" .patient (some 9)).id)
      = some (Profile.mk 1 "p@x.com" "H" "Pat" .patient (some 9)) ∧
    (∃ pay,
      createPayment [Profile.mk 1 "p@x.com" "H" "Pat" .patient (some 9)]
          [Insurance.mk 9 30]
          (Profile.mk 1 "p@x.com" "H" "Pat" .patient (some 9)) 5000
          "lab_test" 77 "card" "tx1"
        = .ok pay ∧
      pay.status = .completed ∧
      pay.amount = 5000 ∧
      pay.patient_pays = 5000 - pay.insurance_coverage ∧
      (∀ iid ins,
        (Profile.mk 1 "p@x.com" "H" "Pat" .patient (some 9)).insurance_id = some iid →
        ([Insurance.mk 9 30].find? (fun s => s.id == iid)) = some ins →
        pay.insurance_coverage = 5000 * ins.coverage_percentage / 100) ∧
      ((Profile.mk 1 "p@x.com" "H" "Pat" .patient (some 9)).insurance_id = none →
        pay.insurance_coverage = 0) ∧
      (∀ iid,
        (Profile.mk 1 "p@x.com" "H" "Pat" .patient (some 9)).insurance_id = some iid →
        ([Insurance.mk 9 30].find? (fun s => s.id == iid)) = none →
        pay.insurance_coverage = 0)) :=
  ⟨rfl, by decide,
   C3_payment_coverage [Profile.mk 1 "p@x.com" "H" "Pat" .patient (some 9)]
     [Insurance.mk 9 30] (Profile.mk 1 "p@x.com" "H" "Pat" .patient (some 9))
     5000 "lab_test" 77 "card" "tx1" rfl (by decide)⟩

/-- Lab test request status enum, from the LabTestRequest schema. -/
inductive LabReqStatus where
  | awaiting_payment
  | pending
  | in_progress
  | completed
deriving DecidableEq, Repr

/-- Result status enum, from the LabTestResult schema. -/
inductive ResultStatus where
  | positive
  | negative
  | inconclusive
deriving DecidableEq, Repr

/-- LabTestRequest document (fields relevant to the verified routes). -/
structure LabTestRequest where
  id : Nat
  patient_id : Nat
  status : LabReqStatus
deriving DecidableEq, Repr

/-- LabTestResult document, from the LabTestResult schema.  The schema puts
a unique index on lab_test_request_id. -/
structure LabTestResult where
  lab_test_request_id : Nat
  technician_id : Nat
  result_status : ResultStatus
  result_data : String
  notes : String
deriving DecidableEq, Repr

/-- Body of POST /results.  A caller-supplied technician_id may be present
in the JSON but the handler spreads it before overriding. -/
structure ResultBody where
  lab_test_request_id : Nat
  technician_id : Option Nat
  result_status : ResultStatus
  result_data : String
  notes : String
deriving DecidableEq, Repr

/-- Lab collections touched by POST /results. -/
structure LabState where
  requests : List LabTestRequest
  results : List LabTestResult
deriving DecidableEq, Repr

/-- POST /results handler: `authorize('lab_technician')`, then construct the
result from the body with technician_id forced to the caller's id, save it
(the unique index on lab_test_request_id rejects a duplicate, surfacing via
the catch-all as a 500), then set the referenced request's status to
completed.  When the referenced request does not exist the save still goes
through and the handler fails afterwards while dereferencing the populated
reference, leaving the saved result behind. -/
def createLabResult (st : LabState) (caller : Profile) (body : ResultBody) :
    LabState × Except (Nat × String) LabTestResult :=
  if caller.role ≠ .lab_technician then
    (st, .error (403, "Access denied"))
  else if st.results.any (fun r => r.lab_test_request_id == body.lab_test_request_id) then
    (st, .error (500, "E11000 duplicate key error"))
  else
    let res : LabTestResult :=
      { lab_test_request_id := body.lab_test_request_id
        technician_id := caller.id
        result_status := body.result_status
        result_data := body.result_data
        notes := body.notes }
    let st1 : LabState := { st with results := st.results ++ [res] }
    if st.requests.any (fun q => q.id == body.lab_test_request_id) then
      ({ st1 with
          requests := st1.requests.map fun q =>
            if q.id == body.lab_test_request_id then { q with status := .completed } else q },
        .ok res)
    else
      (st1, .error (500, "Cannot read properties of null"))

/-- C4: successfully recording a LabTestResult for an existing request r
sets r's status to completed and leaves exactly one result for r, and any
further attempt to record a result for r fails, changing nothing. -/
theorem C4_result_unique_completes (st : LabState) (caller : Profile)
    (body : ResultBody) (r : LabTestRequest)
    (hrole : caller.role = .lab_technician)
    (hr : r ∈ st.requests)
    (hb : body.lab_test_request_id = r.id)
    (hnone : ∀ res ∈ st.results, res.lab_test_request_id ≠ r.id) :
    ∃ st1 res, createLabResult st caller body = (st1, .ok res) ∧
      (∀ q ∈ st1.requests, q.id = r.id → q.status = .completed) ∧
      (st1.results.filter (fun x => x.lab_test_request_id == r.id)).length = 1 ∧
      ∀ caller2 body2, caller2.role = .lab_technician →
        body2.lab_test_request_id = r.id →
        createLabResult st1 caller2 body2
          = (st1, .error (500, "E11000 duplicate key error")) := by
  have hdup : (st.results.any
      fun x => x.lab_test_request_id == body.lab_test_request_id) = false := by
    simp only [List.any_eq_false]
    intro x hx
    simp [hb, hnone x hx]
  have hreq : (st.requests.any fun q => q.id == body.lab_test_request_id) = true := by
    simp only [List.any_eq_true]
    exact ⟨r, hr, by simp [hb]⟩
  have hstep : createLabResult st caller body =
      ({ requests := st.requests.map fun q =>
           if q.id == body.lab_test_request_id then { q with status := .completed } else q,
         results := st.results ++
           [{ lab_test_request_id := body.lab_test_request_id
              technician_id := caller.id
              result_status := body.result_status
              result_data := body.result_data
              notes := body.notes }] },
       .ok { lab_test_request_id := body.lab_test_request_id
             technician_id := caller.id
             result_status := body.result_status
             result_data := body.result_data
             notes := body.notes }) := by
    simp [createLabResult, hrole, hdup, hreq]
  refine ⟨_, _, hstep, ?_, ?_, ?_⟩
  · intro q hq hqid
    simp only [List.mem_map] at hq
    obtain ⟨q0, hq0, rfl⟩ := hq
    by_cases h0 : q0.id = r.id
    · simp [hb, h0]
    · rw [if_neg (by simp [hb, h0])] at hqid
      exact absurd hqid h0
  · have hfilter : st.results.filter (fun x => x.lab_test_request_id == r.id) = [] := by
      simp only [List.filter_eq_nil_iff]
      intro x hx
      simp [hnone x hx]
    simp [List.filter_append, hfilter, hb]
  · intro caller2 body2 hrole2 hb2
    have hany : ((st.results ++
        [({ lab_test_request_id := body.lab_test_request_id
            technician_id := caller.id
            result_status := body.result_status
            result_data := body.result_data
            notes := body.notes } : LabTestResult)]).any
        fun x => x.lab_test_request_id == body2.lab_test_request_id) = true := by
      simp [hb2, hb]
    simp [createLabResult, hrole2, hany]

/-- C4 witness: one pending request, an empty result collection, one
successful recording followed by a failing second attempt, via the theorem
at a concrete input. -/
theorem C4_result_unique_completes_witness :
    (Profile.mk 3 "t@x.com" "H" "Tech" .lab_technician none).role = .lab_technician ∧
    (LabTestRequest.mk 11 1 .pending) ∈ (LabState.mk [⟨11, 1, .pending⟩] []).requests ∧
    (ResultBody.mk 11 none .negative "all clear" "").lab_test_request_id
      = (LabTestRequest.mk 11 1 .pending).id ∧
    (∀ res ∈ (LabState.mk [⟨11, 1, .pending⟩] []).results,
      res.lab_test_request_id ≠ (LabTestRequest.mk 11 1 .pending).id) ∧
    (∃ st1 res,
      createLabResult (LabState.mk [⟨11, 1, .pending⟩] [])
          (Profile.mk 3 "t@x.com" "H" "Tech" .lab_technician none)
          (ResultBody.mk 11 none .negative "all clear" "")
        = (st1, .ok res) ∧
      (∀ q ∈ st1.requests, q.id = (LabTestRequest.mk 11 1 .pending).id →
        q.status = .completed) ∧
      (st1.results.filter
        (fun x => x.lab_test_request_id == (LabTestRequest.mk 11 1 .pending).id)).length = 1 ∧
      ∀ caller2 body2, caller2.role = .lab_technician →
        body2.lab_test_request_id = (LabTestRequest.mk 11 1 .pending).id →
        createLabResult st1 caller2 body2
          = (st1, .error (500, "E11000 duplicate key error"))) :=
  ⟨rfl, by decide, rfl, by decide,
   C4_result_unique_completes (LabState.mk [⟨11, 1, .pending⟩] [])
     (Profile.mk 3 "t@x.com" "H" "Tech" .lab_technician none)
     (ResultBody.mk 11 none .negative "all clear" "")
     (LabTestRequest.mk 11 1 .pending) rfl (by decide) rfl (by decide)⟩

/-- C10: the stored technician_id always equals the authenticated caller's
profile id; the handler's outcome is entirely independent of any
technician_id supplied in the request body, and on success the created
result carries the caller's id. -/
theorem C10_technician_overridden (st : LabState) (caller : Profile)
    (body : ResultBody) (v : Option Nat) :
    createLabResult st caller body
      = createLabResult st caller { body with technician_id := v } ∧
    ∀ st1 res, createLabResult st caller body = (st1, .ok res) →
      res.technician_id = caller.id := by
  constructor
  · simp [createLabResult]
  · intro st1 res h
    by_cases hrole : caller.role = .lab_technician
    · by_cases hdup : st.results.any
          (fun r => r.lab_test_request_id == body.lab_test_request_id)
      · simp [createLabResult, hrole, hdup] at h
      · by_cases hreq : st.requests.any (fun q => q.id == body.lab_test_request_id)
        · simp [createLabResult, hrole, hdup, hreq] at h
          rw [← h.2]
        · simp [createLabResult, hrole, hdup, hreq] at h
    · simp [createLabResult, hrole] at h

/-- C10 witness: the theorem at a concrete input where the body smuggles
technician_id 99 and the stored result still carries the caller's id 3. -/
theorem C10_technician_overridden_witness :
    createLabResult (LabState.mk [⟨12, 1, .pending⟩] [])
        (Profile.mk 3 "t@x.com" "H" "Tech" .lab_technician none)
        (ResultBody.mk 12 (some 99) .positive "data" "")
      = createLabResult (LabState.mk [⟨12, 1, .pending⟩] [])
          (Profile.mk 3 "t@x.com" "H" "Tech" .lab_technician none)
          { ResultBody.mk 12 (some 99) .positive "data" "" with technician_id := none } ∧
    ∀ st1 res,
      createLabResult (LabState.mk [⟨12, 1, .pending⟩] [])
          (Profile.mk 3 "t@x.com" "H" "Tech" .lab_technician none)
          (ResultBody.mk 12 (some 99) .positive "data" "")
        = (st1, .ok res) →
      res.technician_id = (Profile.mk 3 "t@x.com" "H" "Tech" .lab_technician none).id :=
  C10_technician_overridden (LabState.mk [⟨12, 1, .pending⟩] [])
    (Profile.mk 3 "t@x.com" "H" "Tech" .lab_technician none)
    (ResultBody.mk 12 (some 99) .positive "data" "") none

/-- Doctor role-profile document (fields relevant to the verified routes). -/
structure Doctor where
  id : Nat
  user_id : Nat
deriving DecidableEq, Repr

/-- Consultation document, from the consultation schema.  The schema puts a
unique index on appointment_id. -/
structure Consultation where
  appointment_id : Nat
  patient_id : Nat
  doctor_id : Nat
  diagnosis : String
  notes : String
  requires_lab_test : Bool
  requires_prescription : Bool
deriving DecidableEq, Repr

/-- Body of POST /consultations.  The caller may supply patient and doctor
references but the handler overrides both from the appointment. -/
structure ConsultationBody where
  appointment_id : Nat
  patient_id : Option Nat
  doctor_id : Option Nat
  diagnosis : String
  notes : String
  requires_lab_test : Bool
  requires_prescription : Bool
deriving DecidableEq, Repr

/-- Collections touched by POST /consultations. -/
structure ClinicState where
  appointments : List Appointment
  doctors : List Doctor
  consultations : List Consultation
deriving DecidableEq, Repr

/-- POST /consultations handler: role gate, appointment lookup, assigned
doctor check, then save.  The unique index on appointment_id rejects a
duplicate, and the handler's catch-all turns the storage error into a
generic 500 response carrying the raw message.  The appointment document
itself is never written. -/
def createConsultation (st : ClinicState) (caller : Profile)
    (body : ConsultationBody) : ClinicState × Except (Nat × String) Consultation :=
  if caller.role ≠ .doctor then
    (st, .error (403, "Only doctors can create consultations"))
  else
    match st.appointments.find? (fun a => a.id == body.appointment_id) with
    | none => (st, .error (404, "Appointment not found"))
    | some appt =>
      match st.doctors.find? (fun d => d.user_id == caller.id) with
      | none => (st, .error (403, "Access denied"))
      | some doct =>
        if doct.id ≠ appt.doctor_id then
          (st, .error (403, "Access denied"))
        else if st.consultations.any (fun c => c.appointment_id == body.appointment_id) then
          (st, .error (500, "E11000 duplicate key error"))
        else
          ({ st with consultations := st.consultations ++
              [{ appointment_id := body.appointment_id
                 patient_id := appt.patient_id
                 doctor_id := appt.doctor_id
                 diagnosis := body.diagnosis
                 notes := body.notes
                 requires_lab_test := body.requires_lab_test
                 requires_prescription := body.requires_prescription }] },
            .ok { appointment_id := body.appointment_id
                  patient_id := appt.patient_id
                  doctor_id := appt.doctor_id
                  diagnosis := body.diagnosis
                  notes := body.notes
                  requires_lab_test := body.requires_lab_test
                  requires_prescription := body.requires_prescription })

/-- C5 counterexample to the claim as stated: a concrete second consultation
attempt for appointment 1 by its assigned doctor fails with HTTP status 500
carrying the raw storage-layer message, the same shape as the generic
Unexpected error, not a distinct Conflict response nor a validation-layer
rejection. -/
theorem C5_conflict_counterexample :
    createConsultation
        (ClinicState.mk [⟨1, 10, 2, "2024-06-01", "09:00:00", .approved⟩] [⟨2, 20⟩]
          [⟨1, 10, 2, "flu", "", false, false⟩])
        (Profile.mk 20 "d@x.com" "H" "Doc" .doctor none)
        (ConsultationBody.mk 1 none none "flu again" "" false false)
      = (ClinicState.mk [⟨1, 10, 2, "2024-06-01", "09:00:00", .approved⟩] [⟨2, 20⟩]
          [⟨1, 10, 2, "flu", "", false, false⟩],
         .error (500, "E11000 duplicate key error")) := by
  rfl

/-- C5 (amended): the uniqueness invariant holds — when a consultation for
the appointment already exists, a second creation attempt adds no document
and fails — but the failure is the handler's generic 500 with the raw
storage message, not a distinctly surfaced Conflict. -/
theorem C5_second_consultation_fails (st : ClinicState) (caller : Profile)
    (body : ConsultationBody) (appt : Appointment) (doct : Doctor)
    (hrole : caller.role = .doctor)
    (happt : st.appointments.find? (fun a => a.id == body.appointment_id) = some appt)
    (hdoct : st.doctors.find? (fun d => d.user_id == caller.id) = some doct)
    (hmatch : doct.id = appt.doctor_id)
    (hdup : ∃ c ∈ st.consultations, c.appointment_id = body.appointment_id) :
    createConsultation st caller body = (st, .error (500, "E11000 duplicate key error")) := by
  have hany : (st.consultations.any fun c => c.appointment_id == body.appointment_id) = true := by
    simp only [List.any_eq_true]
    obtain ⟨c, hc, hce⟩ := hdup
    exact ⟨c, hc, by simp [hce]⟩
  simp [createConsultation, hrole, happt, hdoct, hmatch, hany]

/-- C5 witness: the amended theorem at the concrete duplicate scenario. -/
theorem C5_second_consultation_fails_witness :
    createConsultation
        (ClinicState.mk [⟨1, 10, 2, "2024-06-01", "10:00:00", .approved⟩] [⟨2, 20⟩]
          [⟨1, 10, 2, "cold", "", false, false⟩])
        (Profile.mk 20 "d@x.com" "H" "Doc" .doctor none)
        (ConsultationBody.mk 1 none none "cold again" "" false false)
      = (ClinicState.mk [⟨1, 10, 2, "2024-06-01", "10:00:00", .approved⟩] [⟨2, 20⟩]
          [⟨1, 10, 2, "cold", "", false, false⟩],
         .error (500, "E11000 duplicate key error")) :=
  C5_second_consultation_fails
    (ClinicState.mk [⟨1, 10, 2, "2024-06-01", "10:00:00", .approved⟩] [⟨2, 20⟩]
      [⟨1, 10, 2, "cold", "", false, false⟩])
    (Profile.mk 20 "d@x.com" "H" "Doc" .doctor none)
    (ConsultationBody.mk 1 none none "cold again" "" false false)
    (Appointment.mk 1 10 2 "2024-06-01" "10:00:00" .approved)
    (Doctor.mk 2 20) rfl (by decide) (by decide) rfl
    ⟨⟨1, 10, 2, "cold", "", false, false⟩, by decide, rfl⟩

/-- C6 counterexample to the claim as stated: a concrete successful
consultation recording leaves the appointment's status at approved; it is
not set to completed as part of the operation. -/
theorem C6_status_counterexample :
    ((createConsultation
        (ClinicState.mk [⟨1, 10, 2, "2024-06-01", "09:00:00", .approved⟩] [⟨2, 20⟩] [])
        (Profile.mk 20 "d@x.com" "H" "Doc" .doctor none)
        (ConsultationBody.mk 1 none none "flu" "" false false)).2
      = .ok ⟨1, 10, 2, "flu", "", false, false⟩) ∧
    ((createConsultation
        (ClinicState.mk [⟨1, 10, 2, "2024-06-01", "09:00:00", .approved⟩] [⟨2, 20⟩] [])
        (Profile.mk 20 "d@x.com" "H" "Doc" .doctor none)
        (ConsultationBody.mk 1 none none "flu" "" false false)).1.appointments.map
        (fun a => a.status) = [.approved]) ∧
    ApptStatus.approved ≠ ApptStatus.completed := by
  refine ⟨by rfl, by rfl, by decide⟩

/-- C6 (amended): recording a consultation never writes the appointment
collection at all; in particular the appointment's status is not set to
completed by this operation (that transition only happens through the
separate appointment-update endpoint). -/
theorem C6_appointments_unchanged (st : ClinicState) (caller : Profile)
    (body : ConsultationBody) :
    ((createConsultation st caller body).1).appointments = st.appointments := by
  unfold createConsultation
  repeat' split
  all_goals rfl

/-- PharmacyRequest status enum, from the PharmacyRequest schema. -/
inductive PhStatus where
  | pending
  | approved
  | rejected
  | completed
deriving DecidableEq, Repr

/-- PharmacyRequest document, from the PharmacyRequest schema. -/
structure PharmacyRequest where
  prescription_id : Nat
  patient_id : Nat
  pharmacy_id : Nat
  status : PhStatus
  rejection_reason : Option String
deriving DecidableEq, Repr

/-- Body of PUT /prescriptions/:id; a field is `none` when absent
(`undefined`) in the JSON, mirroring the handler's `!== undefined` tests. -/
structure PUpdateBody where
  medication_id : Option Nat
  quantity : Option Int
  dosage : Option String
  instructions : Option String
  unit_price : Option Rat
  pharmacy_id : Option Nat
  status : Option PStatus
  notes : Option String
  signature_data : Option String
deriving DecidableEq, Repr

/-- Field application of PUT /prescriptions/:id: provided fields replace the
stored ones, and total_price is recomputed per the handler's three branches.
In the `unit_price`-only branch the source uses `prescription.quantity || 1`
(a quantity of 0 falls back to 1); in the `quantity`-only branch it uses
`prescription.unit_price || 0`, which over numbers is the stored unit_price
itself. -/
def applyBody (p : Prescription) (b : PUpdateBody) : Prescription :=
  { p with
    medication_id :=
      match b.medication_id with
      | some m => some m
      | none => p.medication_id
    quantity := b.quantity.getD p.quantity
    dosage := b.dosage.getD p.dosage
    instructions := b.instructions.getD p.instructions
    unit_price := b.unit_price.getD p.unit_price
    pharmacy_id :=
      match b.pharmacy_id with
      | some ph => some ph
      | none => p.pharmacy_id
    status := b.status.getD p.status
    notes := b.notes.getD p.notes
    signature_data := b.signature_data.getD p.signature_data
    total_price :=
      match b.unit_price, b.quantity with
      | some up, some q => up * (q : Rat)
      | some up, none => up * ((if p.quantity == 0 then 1 else p.quantity) : Rat)
      | none, some q => p.unit_price * (q : Rat)
      | none, none => p.total_price }

/-- Collections touched by PUT /prescriptions/:id. -/
structure PharmState where
  prescriptions : List Prescription
  requests : List PharmacyRequest
deriving DecidableEq, Repr

/-- PUT /prescriptions/:id handler: load, role-gate doctors to their own
prescriptions, apply the update, and — when the update assigns a pharmacy —
require the (already updated) prescription to have a medication, then create
a PharmacyRequest for the (prescription, pharmacy) pair unless one exists.
Note the medication check runs after `findByIdAndUpdate` has persisted the
update. -/
def updatePrescription (doctors : List Doctor) (st : PharmState)
    (caller : Profile) (pid : Nat) (b : PUpdateBody) :
    PharmState × Except (Nat × String) Prescription :=
  match st.prescriptions.find? (fun p => p.id == pid) with
  | none => (st, .error (404, "Prescription not found"))
  | some p =>
    let authFail : Bool :=
      caller.role == .doctor &&
        (match doctors.find? (fun d => d.user_id == caller.id) with
         | none => true
         | some doct => doct.id != p.doctor_id)
    if authFail then (st, .error (403, "Access denied"))
    else
      let updated := applyBody p b
      let st1 : PharmState :=
        { st with prescriptions := st.prescriptions.map fun q =>
            if q.id == pid then applyBody q b else q }
      match b.pharmacy_id with
      | none => (st1, .ok updated)
      | some ph =>
        if updated.medication_id.isNone then
          (st1, .error (400,
            "Cannot assign pharmacy: Prescription must have a medication. Please contact the doctor to fix this prescription."))
        else if st1.requests.any
            (fun r => r.prescription_id == pid && r.pharmacy_id == ph) then
          (st1, .ok updated)
        else
          ({ st1 with requests := st1.requests ++
              [{ prescription_id := pid
                 patient_id := updated.patient_id
                 pharmacy_id := ph
                 status := .pending
                 rejection_reason := none }] },
            .ok updated)

/-- Update body that only assigns a pharmacy, the shape of the idempotence
claim's repeated request. -/
def assignPharmacy (ph : Nat) : PUpdateBody :=
  { medication_id := none
    quantity := none
    dosage := none
    instructions := none
    unit_price := none
    pharmacy_id := some ph
    status := none
    notes := none
    signature_data := none }

theorem applyBody_assign_idem (p : Prescription) (ph : Nat) :
    applyBody (applyBody p (assignPharmacy ph)) (assignPharmacy ph)
      = applyBody p (assignPharmacy ph) := by
  simp [applyBody, assignPharmacy]

theorem applyBody_assign_eq (p : Prescription) (ph : Nat) :
    applyBody p (assignPharmacy ph) = { p with pharmacy_id := some ph } := by
  simp [applyBody, assignPharmacy]

theorem find?_update (l : List Prescription) (pid : Nat) (p : Prescription)
    (f : Prescription → Prescription) (hf : ∀ q, (f q).id = q.id)
    (hfind : l.find? (fun q => q.id == pid) = some p) :
    (l.map fun q => if q.id == pid then f q else q).find? (fun q => q.id == pid)
      = some (f p) := by
  induction l with
  | nil => simp at hfind
  | cons q rest ih =>
    by_cases hq : q.id = pid
    · rw [List.find?_cons_of_pos _ (by simp [hq])] at hfind
      injection hfind with hfind
      subst hfind
      simp only [List.map_cons]
      rw [if_pos (by simp [hq])]
      rw [List.find?_cons_of_pos _ (by simp [hf, hq])]
    · rw [List.find?_cons_of_neg _ (by simp [hq])] at hfind
      simp only [List.map_cons]
      rw [if_neg (by simp [hq])]
      rw [List.find?_cons_of_neg _ (by simp [hq])]
      exact ih hfind

theorem map_update_idem (l : List Prescription) (pid : Nat)
    (f : Prescription → Prescription) (hf : ∀ q, (f q).id = q.id)
    (hff : ∀ q, f (f q) = f q) :
    ((l.map fun q => if q.id == pid then f q else q).map
        fun q => if q.id == pid then f q else q)
      = l.map fun q => if q.id == pid then f q else q := by
  rw [List.map_map]
  apply List.map_congr_left
  intro q hq
  by_cases h : q.id = pid
  · simp [h, hf, hff]
  · simp [h]

/-- C7: assigning the same pharmacy to the same prescription two (or, by the
final state-equality, any further) times creates exactly one PharmacyRequest
for the pair; the second identical update returns the same response and
leaves the state untouched.  The prescription is required to have a
medication reference, which the schema marks required. -/
theorem C7_pharmacy_request_idempotent (doctors : List Doctor) (st : PharmState)
    (caller : Profile) (pid ph : Nat) (p : Prescription)
    (hfind : st.prescriptions.find? (fun q => q.id == pid) = some p)
    (hmed : p.medication_id.isSome)
    (hrole : caller.role ≠ .doctor)
    (hnone : ∀ r ∈ st.requests, ¬(r.prescription_id = pid ∧ r.pharmacy_id = ph)) :
    ∃ st1 res,
      updatePrescription doctors st caller pid (assignPharmacy ph) = (st1, .ok res) ∧
      (st1.requests.filter
        (fun r => r.prescription_id == pid && r.pharmacy_id == ph)).length = 1 ∧
      updatePrescription doctors st1 caller pid (assignPharmacy ph) = (st1, .ok res) := by
  have hauth : (caller.role == Role.doctor) = false := by
    simp [hrole]
  have hmedne : p.medication_id ≠ none := by
    simpa [Option.isSome_iff_ne_none] using hmed
  have hany : (st.requests.any
      fun r => r.prescription_id == pid && r.pharmacy_id == ph) = false := by
    simp only [List.any_eq_false]
    intro r hr
    have := hnone r hr
    simp only [Bool.and_eq_true, beq_iff_eq]
    tauto
  have hstep : updatePrescription doctors st caller pid (assignPharmacy ph) =
      ({ prescriptions := st.prescriptions.map fun q =>
           if q.id == pid then applyBody q (assignPharmacy ph) else q,
         requests := st.requests ++
           [{ prescription_id := pid
              patient_id := (applyBody p (assignPharmacy ph)).patient_id
              pharmacy_id := ph
              status := .pending
              rejection_reason := none }] },
       .ok (applyBody p (assignPharmacy ph))) := by
    simp [updatePrescription, hfind, hauth, assignPharmacy, applyBody, hany, hmedne]
  refine ⟨_, _, hstep, ?_, ?_⟩
  · have hfilter : st.requests.filter
        (fun r => r.prescription_id == pid && r.pharmacy_id == ph) = [] := by
      simp only [List.filter_eq_nil_iff]
      intro r hr
      have hnr := hnone r hr
      simp only [Bool.and_eq_true, beq_iff_eq, Bool.not_eq_true]
      simp only [Bool.and_eq_true, beq_iff_eq] at *
      tauto
    simp [List.filter_append, hfilter]
  · have hfind2 : (st.prescriptions.map fun q =>
        if q.id == pid then applyBody q (assignPharmacy ph) else q).find?
          (fun q => q.id == pid) = some (applyBody p (assignPharmacy ph)) :=
      find?_update st.prescriptions pid p _ (fun q => rfl) hfind
    have hstep2 : updatePrescription doctors
        ({ prescriptions := st.prescriptions.map fun q =>
             if q.id == pid then applyBody q (assignPharmacy ph) else q,
           requests := st.requests ++
             [{ prescription_id := pid
                patient_id := (applyBody p (assignPharmacy ph)).patient_id
                pharmacy_id := ph
                status := .pending
                rejection_reason := none }] }) caller pid (assignPharmacy ph) =
        ({ prescriptions := ((st.prescriptions.map fun q =>
              if q.id == pid then applyBody q (assignPharmacy ph) else q).map fun q =>
              if q.id == pid then applyBody q (assignPharmacy ph) else q),
           requests := st.requests ++
             [{ prescription_id := pid
                patient_id := (applyBody p (assignPharmacy ph)).patient_id
                pharmacy_id := ph
                status := .pending
                rejection_reason := none }] },
         .ok (applyBody (applyBody p (assignPharmacy ph)) (assignPharmacy ph))) := by
      unfold updatePrescription
      dsimp only
      rw [hfind2]
      simp [hauth, assignPharmacy, applyBody, hmedne, List.any_append]
    rw [hstep2,
      map_update_idem st.prescriptions pid (fun q => applyBody q (assignPharmacy ph))
        (fun q => rfl) (fun q => applyBody_assign_idem q ph),
      applyBody_assign_idem p ph]

/-- C7 witness: a stored prescription with a medication, pharmacy 7 assigned
twice by its patient, via the theorem at a concrete input. -/
theorem C7_pharmacy_request_idempotent_witness :
    ∃ st1 res,
      updatePrescription []
          (PharmState.mk [⟨1, 1, 10, 2, some 5, 2, "1x daily", "", 500, 1000, "", "",
            .pending, none⟩] [])
          (Profile.mk 10 "pt@x.com" "H" "Pat" .patient none) 1 (assignPharmacy 7)
        = (st1, .ok res) ∧
      (st1.requests.filter
        (fun r => r.prescription_id == 1 && r.pharmacy_id == 7)).length = 1 ∧
      updatePrescription [] st1
          (Profile.mk 10 "pt@x.com" "H" "Pat" .patient none) 1 (assignPharmacy 7)
        = (st1, .ok res) :=
  C7_pharmacy_request_idempotent []
    (PharmState.mk [⟨1, 1, 10, 2, some 5, 2, "1x daily", "", 500, 1000, "", "",
      .pending, none⟩] [])
    (Profile.mk 10 "pt@x.com" "H" "Pat" .patient none) 1 7
    ⟨1, 1, 10, 2, some 5, 2, "1x daily", "", 500, 1000, "", "", .pending, none⟩
    (by rfl) (by rfl) (by decide) (by simp)

/-- C8 counterexample to the claim as stated: assigning pharmacy 7 to a
concrete prescription without a medication does fail with 400 and creates no
PharmacyRequest, but the prescription document has already been modified —
the persisted pharmacy_id is now 7 — so the check is not performed first and
the failing update is not modification-free. -/
theorem C8_counterexample :
    updatePrescription []
        (PharmState.mk [⟨1, 1, 10, 2, none, 2, "1x daily", "", 500, 1000, "", "",
          .pending, none⟩] [])
        (Profile.mk 10 "pt@x.com" "H" "Pat" .patient none) 1 (assignPharmacy 7)
      = (PharmState.mk [⟨1, 1, 10, 2, none, 2, "1x daily", "", 500, 1000, "", "",
          .pending, some 7⟩] [],
         .error (400,
           "Cannot assign pharmacy: Prescription must have a medication. Please contact the doctor to fix this prescription.")) ∧
    ([(⟨1, 1, 10, 2, none, 2, "1x daily", "", 500, 1000, "", "",
        .pending, some 7⟩ : Prescription)]
      ≠ [⟨1, 1, 10, 2, none, 2, "1x daily", "", 500, 1000, "", "", .pending, none⟩]) := by
  refine ⟨by rfl, by decide⟩

/-- C8 (amended): when the update assigns a pharmacy to a prescription whose
medication_id is unresolved, the handler answers 400 and creates no
PharmacyRequest, but the check runs only after the update has been applied:
the stored prescription now carries the assigned pharmacy_id. -/
theorem C8_invalid_state_after_write (doctors : List Doctor) (st : PharmState)
    (caller : Profile) (pid ph : Nat) (p : Prescription)
    (hfind : st.prescriptions.find? (fun q => q.id == pid) = some p)
    (hmed : p.medication_id = none)
    (hrole : caller.role ≠ .doctor) :
    updatePrescription doctors st caller pid (assignPharmacy ph)
      = ({ st with prescriptions := st.prescriptions.map fun q =>
            if q.id == pid then applyBody q (assignPharmacy ph) else q },
         .error (400,
           "Cannot assign pharmacy: Prescription must have a medication. Please contact the doctor to fix this prescription.")) ∧
    (updatePrescription doctors st caller pid (assignPharmacy ph)).1.requests
      = st.requests ∧
    (updatePrescription doctors st caller pid (assignPharmacy ph)).1.prescriptions.find?
        (fun q => q.id == pid) = some { p with pharmacy_id := some ph } := by
  have hauth : (caller.role == Role.doctor) = false := by
    simp [hrole]
  have hstep : updatePrescription doctors st caller pid (assignPharmacy ph)
      = ({ st with prescriptions := st.prescriptions.map fun q =>
            if q.id == pid then applyBody q (assignPharmacy ph) else q },
         .error (400,
           "Cannot assign pharmacy: Prescription must have a medication. Please contact the doctor to fix this prescription.")) := by
    simp [updatePrescription, hfind, hauth, assignPharmacy, applyBody, hmed]
  refine ⟨hstep, by rw [hstep], ?_⟩
  rw [hstep]
  have := find?_update st.prescriptions pid p
    (fun q => applyBody q (assignPharmacy ph)) (fun q => rfl) hfind
  rw [this]
  exact congrArg some (applyBody_assign_eq p ph)

/-- C8 witness: the amended theorem at the concrete medication-less
prescription. -/
theorem C8_invalid_state_after_write_witness :
    updatePrescription []
        (PharmState.mk [⟨2, 1, 10, 2, none, 2, "1x daily", "", 500, 1000, "", "",
          .pending, none⟩] [])
        (Profile.mk 10 "pt@x.com" "H" "Pat" .patient none) 2 (assignPharmacy 9)
      = ({ PharmState.mk [⟨2, 1, 10, 2, none, 2, "1x daily", "", 500, 1000, "", "",
            .pending, none⟩] [] with
           prescriptions := [(⟨2, 1, 10, 2, none, 2, "1x daily", "", 500, 1000, "", "",
             .pending, none⟩ : Prescription)].map fun q =>
               if q.id == 2 then applyBody q (assignPharmacy 9) else q },
         .error (400,
           "Cannot assign pharmacy: Prescription must have a medication. Please contact the doctor to fix this prescription.")) ∧
    (updatePrescription []
        (PharmState.mk [⟨2, 1, 10, 2, none, 2, "1x daily", "", 500, 1000, "", "",
          .pending, none⟩] [])
        (Profile.mk 10 "pt@x.com" "H" "Pat" .patient none) 2 (assignPharmacy 9)).1.requests
      = (PharmState.mk [⟨2, 1, 10, 2, none, 2, "1x daily", "", 500, 1000, "", "",
          .pending, none⟩] []).requests ∧
    (updatePrescription []
        (PharmState.mk [⟨2, 1, 10, 2, none, 2, "1x daily", "", 500, 1000, "", "",
          .pending, none⟩] [])
        (Profile.mk 10 "pt@x.com" "H" "Pat" .patient none) 2
        (assignPharmacy 9)).1.prescriptions.find? (fun q => q.id == 2)
      = some { (⟨2, 1, 10, 2, none, 2, "1x daily", "", 500, 1000, "", "",
          .pending, none⟩ : Prescription) with pharmacy_id := some 9 } :=
  C8_invalid_state_after_write []
    (PharmState.mk [⟨2, 1, 10, 2, none, 2, "1x daily", "", 500, 1000, "", "",
      .pending, none⟩] [])
    (Profile.mk 10 "pt@x.com" "H" "Pat" .patient none) 2 9
    ⟨2, 1, 10, 2, none, 2, "1x daily", "", 500, 1000, "", "", .pending, none⟩
    (by rfl) rfl (by decide)

/-- Email normalization of POST /login, embedding
`email.toLowerCase().trim()`.  The Profile schema applies the same lowercase
and trim transforms before storing an email. -/
def normalizeEmail (e : String) : String := e.toLower.trim

/-- POST /login handler.  `verify` abstracts `bcrypt.compare` and `secret`
is the JWT signing secret; on success the handler returns the matched
profile (token issuing is outside the model). -/
def login (verify : String → String → Bool) (secret : String)
    (db : List Profile) (email password : String) : Except (Nat × String) Profile :=
  if email == "" || password == "" then
    .error (400, "Email and password are required")
  else
    match db.find? (fun u => u.email == normalizeEmail email) with
    | none => .error (400, "Invalid email or password")
    | some u =>
      if ! verify password u.password then
        .error (400, "Invalid email or password")
      else if secret == "" then
        .error (500, "Server configuration error")
      else
        .ok u

/-- C9: the supplied email is matched after lowercasing and trimming, so any
two spellings with the same normal form behave identically, and the
unknown-email and wrong-password failures are the very same 400 response
with the message Invalid email or password, indistinguishable to the
caller. -/
theorem C9_login_uniform_error (verify : String → String → Bool) (secret : String)
    (db : List Profile) (email password : String)
    (he : email ≠ "") (hp : password ≠ "") :
    ((∀ u ∈ db, u.email ≠ normalizeEmail email) →
       login verify secret db email password
         = .error (400, "Invalid email or password")) ∧
    (∀ u, db.find? (fun x => x.email == normalizeEmail email) = some u →
       verify password u.password = false →
       login verify secret db email password
         = .error (400, "Invalid email or password")) ∧
    (∀ email2, email2 ≠ "" → normalizeEmail email2 = normalizeEmail email →
       login verify secret db email2 password
         = login verify secret db email password) := by
  refine ⟨?_, ?_, ?_⟩
  · intro hno
    have hfind : db.find? (fun u => u.email == normalizeEmail email) = none := by
      rw [List.find?_eq_none]
      intro u hu
      simp [hno u hu]
    simp [login, he, hp, hfind]
  · intro u hfind hver
    simp [login, he, hp, hfind, hver]
  · intro email2 he2 hnorm
    simp [login, he, hp, he2, hnorm]

/-- C9 witness: the theorem at a concrete database and credentials. -/
theorem C9_login_uniform_error_witness :
    (" Alice@X.com " ≠ "") ∧
    (((∀ u ∈ [Profile.mk 1 "alice@x.com" "HASH" "Alice" .patient none],
        u.email ≠ normalizeEmail " Alice@X.com ") →
       login (fun pw h => pw == "pw123" && h == "HASH") "jwtsecret"
           [Profile.mk 1 "alice@x.com" "HASH" "Alice" .patient none]
           " Alice@X.com " "wrongpw"
         = .error (400, "Invalid email or password")) ∧
    (∀ u, [Profile.mk 1 "alice@x.com" "HASH" "Alice" .patient none].find?
        (fun x => x.email == normalizeEmail " Alice@X.com ") = some u →
       (fun pw h => pw == "pw123" && h == "HASH") "wrongpw" u.password = false →
       login (fun pw h => pw == "pw123" && h == "HASH") "jwtsecret"
           [Profile.mk 1 "alice@x.com" "HASH" "Alice" .patient none]
           " Alice@X.com " "wrongpw"
         = .error (400, "Invalid email or password")) ∧
    (∀ email2, email2 ≠ "" →
       normalizeEmail email2 = normalizeEmail " Alice@X.com " →
       login (fun pw h => pw == "pw123" && h == "HASH") "jwtsecret"
           [Profile.mk 1 "alice@x.com" "HASH" "Alice" .patient none]
           email2 "wrongpw"
         = login (fun pw h => pw == "pw123" && h == "HASH") "jwtsecret"
             [Profile.mk 1 "alice@x.com" "HASH" "Alice" .patient none]
             " Alice@X.com " "wrongpw")) :=
  ⟨by decide,
   C9_login_uniform_error (fun pw h => pw == "pw123" && h == "HASH") "jwtsecret"
     [Profile.mk 1 "alice@x.com" "HASH" "Alice" .patient none]
     " Alice@X.com " "wrongpw" (by decide) (by decide)⟩

end EasyHealth

